import Mathlib

/-!
# Pokemon-3D: ground renderer, frame loop and input handlers

A shallow embedding of `src/engine/GroundRenderer.cpp` and of the functions of
`src/gl_pokemon.cpp` (`toScreenCoord`, `OnKeyPress`, `createLoadingScreen`, `main`).

Calls into OpenGL / GLFW / the shader objects are recorded, in program order, in a
trace.  Objects reached through pointers (`ground->mesh`) live in an explicit heap.
-/

namespace Pokemon3D

/-! ## GroundRenderer.cpp -/

/-- The type glm::vec3.  The scalar type `F` stands for `float`; the renderer only stores
and copies components, so it is kept abstract. -/
structure Vec3 (F : Type) where
  x : F
  y : F
  z : F
deriving DecidableEq, Repr

/-- The part of `Texture` read by the renderer. -/
structure Texture where
  textureId : Nat
deriving DecidableEq, Repr

/-- The part of `TexturedModel` read by the renderer (`M` stands for glm::mat4). -/
structure TexturedModel (M : Type) where
  vao : Nat
  mesh_indices_count : Nat
  texture : Texture
  matrix : M
deriving DecidableEq, Repr

/-- The fields of `Mesh` that `GroundRenderer` reads or writes. -/
structure Mesh (F M : Type) where
  position : Vec3 F
  rotX : F
  rotY : F
  rotZ : F
  scale : F
  texturedModel : TexturedModel M
deriving DecidableEq, Repr

/-- A ground tile `nsGround::Ground`: its world offsets `x`, `z` and the pointer `mesh`
(an address in the mesh heap). -/
structure Ground (F : Type) where
  x : F
  z : F
  mesh : Nat
deriving DecidableEq, Repr

/-- Calls issued by `GroundRenderer` on its shader and on OpenGL.  `glDrawElements` is always
called with `GL_TRIANGLES`, `GL_UNSIGNED_INT` and offset 0, so only the count is recorded. -/
inductive GLCall (M : Type) where
  | loadProjectionMatrix (m : M)
  | loadViewMatrix (m : M)
  | loadTextureUni (textureId : Nat)
  | loadModelMatrix (m : M)
  | glBindVertexArray (vao : Nat)
  | glDrawElements (count : Nat)
deriving DecidableEq, Repr

/-- Meshes by address. -/
abbrev MeshHeap (F M : Type) := Nat → Mesh F M

/-- Renderer state: the meshes reachable through `Ground::mesh` and the calls issued so far. -/
structure RenderState (F M : Type) where
  heap : MeshHeap F M
  trace : List (GLCall M)

section GroundRenderer

variable {F M : Type} [Zero F] [One F]

/-- Appends one call to the trace. -/
def RenderState.emit (s : RenderState F M) (c : GLCall M) : RenderState F M :=
  { s with trace := s.trace ++ [c] }

/-- Writes through a mesh pointer. -/
def RenderState.store (s : RenderState F M) (p : Nat) (m : Mesh F M) : RenderState F M :=
  { s with heap := Function.update s.heap p m }

/-- `GroundRenderer::prepareGround` (GroundRenderer.cpp:37-42). -/
def prepareGround (model : Ground F) (projection view : M) (s : RenderState F M) :
    RenderState F M :=
  let s := s.emit (.loadProjectionMatrix projection)
  let s := s.emit (.loadViewMatrix view)
  s.emit (.loadTextureUni (s.heap model.mesh).texturedModel.texture.textureId)

/-- `GroundRenderer::unbindMesh` (GroundRenderer.cpp:44-46): `glBindVertexArray(NULL)`. -/
def unbindMesh (s : RenderState F M) : RenderState F M :=
  s.emit (.glBindVertexArray 0)

/-- `GroundRenderer::loadModelMatrix` (GroundRenderer.cpp:52-60).  `Mesh.h` is not part of the
sources, so `Mesh::createTransformationMatrix` is the parameter `createTransformationMatrix`,
a function of the mesh object it is called on. -/
def loadModelMatrix (createTransformationMatrix : Mesh F M → M) (ground : Ground F)
    (s : RenderState F M) : RenderState F M :=
  let s := s.store ground.mesh { s.heap ground.mesh with position := ⟨ground.x, 0, ground.z⟩ }
  let s := s.store ground.mesh { s.heap ground.mesh with rotX := 0 }
  let s := s.store ground.mesh { s.heap ground.mesh with rotY := 0 }
  let s := s.store ground.mesh { s.heap ground.mesh with rotZ := 0 }
  let s := s.store ground.mesh { s.heap ground.mesh with scale := 1 }
  s.emit (.loadModelMatrix (createTransformationMatrix (s.heap ground.mesh)))

/-- `GroundRenderer::prepareInstance` (GroundRenderer.cpp:48-50). -/
def prepareInstance (createTransformationMatrix : Mesh F M → M) (ground : Ground F)
    (s : RenderState F M) : RenderState F M :=
  loadModelMatrix createTransformationMatrix ground s

/-- The body of the loop of `GroundRenderer::render` (GroundRenderer.cpp:13-20). -/
def renderBody (createTransformationMatrix : Mesh F M → M) (projection view : M)
    (it : Ground F) (s : RenderState F M) : RenderState F M :=
  let s := prepareGround it projection view s
  let s := prepareInstance createTransformationMatrix it s
  let s := s.emit (.glBindVertexArray (s.heap it.mesh).texturedModel.vao)
  let s := s.emit (.glDrawElements (s.heap it.mesh).texturedModel.mesh_indices_count)
  unbindMesh s

/-- `GroundRenderer::render(std::vector<Ground>, mat4, mat4)` (GroundRenderer.cpp:11-22):
the iterator walks the vector from `begin()` to `end()`. -/
def render (createTransformationMatrix : Mesh F M → M) :
    List (Ground F) → M → M → RenderState F M → RenderState F M
  | [], _, _, s => s
  | it :: rest, projection, view, s =>
      render createTransformationMatrix rest projection view
        (renderBody createTransformationMatrix projection view it s)

/-- The mesh of a ground tile after `loadModelMatrix`: position `(x, 0, z)`, no rotation,
unit scale, textured model as before. -/
def placedMesh (g : Ground F) (m : Mesh F M) : Mesh F M :=
  { position := ⟨g.x, 0, g.z⟩, rotX := 0, rotY := 0, rotZ := 0, scale := 1,
    texturedModel := m.texturedModel }

/-- The block of calls expected for one ground tile, read off a given heap. -/
def groundBlock (createTransformationMatrix : Mesh F M → M) (h : MeshHeap F M)
    (projection view : M) (g : Ground F) : List (GLCall M) :=
  [ .loadProjectionMatrix projection,
    .loadViewMatrix view,
    .loadTextureUni (h g.mesh).texturedModel.texture.textureId,
    .loadModelMatrix (createTransformationMatrix (placedMesh g (h g.mesh))),
    .glBindVertexArray (h g.mesh).texturedModel.vao,
    .glDrawElements (h g.mesh).texturedModel.mesh_indices_count,
    .glBindVertexArray 0 ]

/-- Recognises draw calls. -/
def GLCall.isDraw : GLCall M → Bool
  | .glDrawElements _ => true
  | _ => false

end GroundRenderer

/-! ## gl_pokemon.cpp: input handlers -/

/-- The constant GLFW_RELEASE of the GLFW header. -/
def GLFW_RELEASE : Int := 0

/-- The constant GLFW_PRESS of the GLFW header. -/
def GLFW_PRESS : Int := 1

/-- The constant GLFW_REPEAT of the GLFW header. -/
def GLFW_REPEAT : Int := 2

/-- The constant GLFW_KEY_ESCAPE of the GLFW header. -/
def GLFW_KEY_ESCAPE : Int := 256

/-- The constant GLFW_KEY_UNKNOWN of the GLFW header. -/
def GLFW_KEY_UNKNOWN : Int := -1

/-- What `OnKeyPress` can change: the global table `int keys[1024]` (gl_pokemon.cpp:33) and
the close flag of the window. -/
structure InputState where
  keys : List Int
  windowShouldClose : Bool
deriving DecidableEq, Repr

/-- The assignment `keys[key] = v` on a C array: defined only for an index inside the array. -/
def keysStore (keys : List Int) (key : Int) (v : Int) : Option (List Int) :=
  if 0 ≤ key ∧ key < keys.length then some (keys.set key.toNat v) else none

/-- `OnKeyPress` (gl_pokemon.cpp:208-218).  `true` and `false` are stored into an `int`
table as 1 and 0.  The result is `none` when an assignment falls outside the table. -/
def OnKeyPress (s : InputState) (key action : Int) : Option InputState :=
  let s := if key = GLFW_KEY_ESCAPE ∧ action = GLFW_PRESS
    then { s with windowShouldClose := true } else s
  if key ≥ 0 ∧ key < 1024 then
    if action = GLFW_PRESS then
      (keysStore s.keys key 1).map fun k => { s with keys := k }
    else if action = GLFW_RELEASE then
      (keysStore s.keys key 0).map fun k => { s with keys := k }
    else some s
  else some s

/-! ## gl_pokemon.cpp: toScreenCoord

Arithmetic is carried out over the rationals: it agrees with the `float` computation wherever
the latter is exact. -/

/-- The function glm::clamp, that is `min(max(x, minVal), maxVal)`. -/
def clamp (x minVal maxVal : ℚ) : ℚ := min (max x minVal) maxVal

/-- First assignment to `coord.x` (gl_pokemon.cpp:191). -/
def rawCoordX (SCREEN_WIDTH SCREEN_HEIGHT : Int) (x : ℚ) : ℚ :=
  (2 * x - (SCREEN_HEIGHT : ℚ)) / (SCREEN_WIDTH : ℚ)

/-- First assignment to `coord.y` (gl_pokemon.cpp:193). -/
def rawCoordY (SCREEN_WIDTH SCREEN_HEIGHT : Int) (y : ℚ) : ℚ :=
  -(2 * y - (SCREEN_HEIGHT : ℚ)) / (SCREEN_WIDTH : ℚ)

/-- `toScreenCoord` (gl_pokemon.cpp:188-206); `sqrt` and glm::normalize are parameters. -/
def toScreenCoord (sqrt : ℚ → ℚ) (normalize : Vec3 ℚ → Vec3 ℚ)
    (SCREEN_WIDTH SCREEN_HEIGHT : Int) (x y : ℚ) : Vec3 ℚ :=
  let coord : Vec3 ℚ := ⟨0, 0, 0⟩
  let coord := { coord with x := rawCoordX SCREEN_WIDTH SCREEN_HEIGHT x }
  let coord := { coord with y := rawCoordY SCREEN_WIDTH SCREEN_HEIGHT y }
  let coord := { coord with x := clamp coord.x (-1) 1 }
  let coord := { coord with y := clamp coord.y (-1) 1 }
  let length_squared := coord.x * coord.x + coord.y * coord.y
  if length_squared ≤ 1 then { coord with z := sqrt (1 - length_squared) }
  else normalize coord

/-- The cursor is over the window. -/
def insideWindow (SCREEN_WIDTH SCREEN_HEIGHT : Int) (x y : ℚ) : Prop :=
  0 ≤ x ∧ x ≤ (SCREEN_WIDTH : ℚ) ∧ 0 ≤ y ∧ y ≤ (SCREEN_HEIGHT : ℚ)

/-! ## gl_pokemon.cpp: createLoadingScreen -/

/-- The header fields of `FileLoader::TGAFILE_t` that `createLoadingScreen` reads. -/
structure TGAFILE_t where
  imageWidth : Nat
  imageHeight : Nat
  bitCount : Nat
deriving DecidableEq, Repr

/-- A call `glTexImage2D(GL_TEXTURE_2D, 0, GL_RGB, width, height, 0, GL_RGB,
GL_UNSIGNED_BYTE, data)`, with the length of the buffer behind `data`. -/
structure TexImage2D where
  width : Nat
  height : Nat
  dataSize : Nat
deriving DecidableEq, Repr

/-- Bytes per row of an RGB / unsigned byte image, rows padded to the unpack alignment. -/
def rowStride (alignment width : Nat) : Nat :=
  (width * 3 + alignment - 1) / alignment * alignment

/-- Number of bytes the upload reads from `data` (unpack alignment 4, the GL default). -/
def TexImage2D.bytesRead (u : TexImage2D) : Nat :=
  if u.height = 0 then 0 else (u.height - 1) * rowStride 4 u.width + u.width * 3

/-- Length of `buffer` in `createLoadingScreen` (gl_pokemon.cpp:246), for products within
the range of `int`. -/
def loadingScreenBufferSize (tgafile : TGAFILE_t) : Nat :=
  tgafile.imageWidth * tgafile.imageHeight * (tgafile.bitCount / 8)

/-- The texture upload of `createLoadingScreen` (gl_pokemon.cpp:246-256) for the header that
`LoadTGAFile` returned. -/
def createLoadingScreen (tgafile : TGAFILE_t) : TexImage2D :=
  { width := 1500, height := 843, dataSize := loadingScreenBufferSize tgafile }

/-- The upload stays inside the buffer it is given. -/
def TexImage2D.inBounds (u : TexImage2D) : Prop := u.bytesRead ≤ u.dataSize

instance (u : TexImage2D) : Decidable u.inBounds := by
  unfold TexImage2D.inBounds; infer_instance

/-! ## gl_pokemon.cpp: main -/

/-- The value of EXIT_SUCCESS. -/
def EXIT_SUCCESS : Int := 0

/-- The value of EXIT_FAILURE. -/
def EXIT_FAILURE : Int := 1

/-- The class whose constructor built an element of `meshes`. -/
inductive MeshClass where
  | MainCharacter
  | Terrain
deriving DecidableEq, Repr

/-- An element of `std::list<Mesh> meshes`, identified by the constructor call in `main` that
built it.  Numeric arguments are the decimal values of the `float` literals; `extra` holds the
numeric arguments after the scale. -/
structure MeshObject where
  cls : MeshClass
  program_id : Nat
  obj : String
  tex : String
  position : Vec3 ℚ
  rotX : ℚ
  rotY : ℚ
  rotZ : ℚ
  scale : ℚ
  extra : List ℚ
deriving DecidableEq, Repr

/-- An element of `std::vector<nsGround::Ground> grounds`, identified by the arguments of
`nsGround::Ground(program_id, gridX, gridZ, texture)`. -/
structure GroundObject where
  program_id : Nat
  gridX : Int
  gridZ : Int
  texture : String
deriving DecidableEq, Repr

/-- Calls made by `main`, in the order of the program text. -/
inductive Event where
  | glfwInit
  | cerr (msg : String)
  | glfwWindowHint (hint value : String)
  | glfwGetPrimaryMonitor
  | glfwCreateWindow
  | glfwTerminate
  | glfwGetWindowSize
  | glfwMakeContextCurrent
  | glewInit
  | glewIsSupported (what : String)
  | createLoadingScreen (file_name : String)
  | newStaticShader
  | newGroundShader
  | newMesh (m : MeshObject)
  | newThirdPersonCamera
  | newMeshWrapper (obj tex : String) (count : Nat) (v : Vec3 ℚ)
  | newGround (g : GroundObject)
  | glfwSetKeyCallback
  | glfwSetCursorPosCallback
  | glfwSetScrollCallback
  | glfwSetMouseButtonCallback
  | glfwSetInputMode
  | getCurrentTime
  | perspective
  | newLight
  | newMeshRenderer
  | newGroundRenderer
  | newMasterRenderer
  | processWrapper (obj : String)
  | glfwWindowShouldClose
  | glfwPollEvents
  | cameraMove
  | animate
  | processMesh (m : MeshObject)
  | processGround (g : GroundObject)
  | getViewMatrix
  | masterRender
  | glfwSwapBuffers
  | clean
deriving DecidableEq, Repr

/-- What the environment answers to `main`: the results of the three start-up checks, the
program id of the static shader, and the answer of the k-th call of `glfwWindowShouldClose`. -/
structure Env where
  glfwInitOk : Bool
  windowCreated : Bool
  gl33Supported : Bool
  program_id : Nat
  shouldClose : Nat → Bool

/-- Program state of `main`: the global list `meshes`, the local vector `grounds`, and the calls
made so far. -/
structure Program where
  meshes : List MeshObject
  grounds : List GroundObject
  trace : List Event
deriving DecidableEq, Repr

/-- Records calls. -/
def Program.emit (p : Program) (es : List Event) : Program :=
  { p with trace := p.trace ++ es }

/-- The object built by `new MainCharacter(...)` (gl_pokemon.cpp:318-325). -/
def mainCharacter (program_id : Nat) : MeshObject :=
  { cls := .MainCharacter, program_id := program_id,
    obj := "models/objects/Trainer.obj", tex := "models/textures/Trainer.tga",
    position := ⟨0, 0, 0⟩, rotX := 0, rotY := 180, rotZ := 0, scale := 1 / 10,
    extra := [2 / 10, 50] }

/-- The object `Terrain pokecenter` (gl_pokemon.cpp:329-335). -/
def pokecenter (program_id : Nat) : MeshObject :=
  { cls := .Terrain, program_id := program_id,
    obj := "models/objects/Pokecenter.obj", tex := "models/textures/Pokecenter.tga",
    position := ⟨30, 12 / 10, -50⟩, rotX := 0, rotY := 180, rotZ := 0, scale := 10,
    extra := [1, 50] }

/-- The object `Terrain squirle` (gl_pokemon.cpp:338-344). -/
def squirle (program_id : Nat) : MeshObject :=
  { cls := .Terrain, program_id := program_id,
    obj := "models/objects/Squirtle.obj", tex := "models/textures/Squirtle.tga",
    position := ⟨-20, 0, -24⟩, rotX := 0, rotY := 0, rotZ := 0, scale := 15 / 100,
    extra := [] }

/-- The object `Terrain pikachu` (gl_pokemon.cpp:347-353). -/
def pikachu (program_id : Nat) : MeshObject :=
  { cls := .Terrain, program_id := program_id,
    obj := "models/objects/Pikachu.obj", tex := "models/textures/Pikachu.tga",
    position := ⟨5, 0, -100⟩, rotX := 0, rotY := 0, rotZ := 0, scale := 15 / 100,
    extra := [] }

/-- The call `meshes.push_back(m)` after constructing `m`. -/
def Program.pushMesh (p : Program) (m : MeshObject) : Program :=
  { p with meshes := p.meshes ++ [m] }

/-- The call `grounds.push_back(nsGround::Ground(...))`. -/
def Program.pushGround (p : Program) (g : GroundObject) : Program :=
  { (p.emit [.newGround g]) with grounds := p.grounds ++ [g] }

/-- Scene construction in `main` (gl_pokemon.cpp:311-395), from the loading screen to the
two `processWrapper` calls.  `grounds` is declared, empty, at line 373. -/
def buildScene (env : Env) (p : Program) : Program :=
  let p := p.emit [.createLoadingScreen "models/textures/LoadingScreen.tga"]
  let p := p.emit [.newStaticShader, .newGroundShader]
  let program_id := env.program_id
  let p := p.emit [.newMesh (mainCharacter program_id)]
  let p := p.pushMesh (mainCharacter program_id)
  let p := p.emit [.newThirdPersonCamera]
  let p := p.emit [.newMesh (pokecenter program_id)]
  let p := p.pushMesh (pokecenter program_id)
  let p := p.emit [.newMesh (squirle program_id)]
  let p := p.pushMesh (squirle program_id)
  let p := p.emit [.newMesh (pikachu program_id)]
  let p := p.pushMesh (pikachu program_id)
  let p := p.emit [.newMeshWrapper "models/objects/Tree2.obj" "models/textures/Tree2.tga" 250
    ⟨50, 75, 1⟩]
  let p := p.emit [.newMeshWrapper "models/objects/Tree.obj" "models/textures/Tree.tga" 250
    ⟨4, 2, 100⟩]
  let p := { p with grounds := [] }
  let p := p.pushGround ⟨program_id, 0, 0, "models/textures/Ground_grass3.tga"⟩
  let p := p.pushGround ⟨program_id, 1, 0, "models/textures/Ground_grass3.tga"⟩
  let p := p.pushGround ⟨program_id, 0, 1, "models/textures/Ground_grass3.tga"⟩
  let p := p.pushGround ⟨program_id, 1, 1, "models/textures/Ground_grass3.tga"⟩
  let p := p.emit [.glfwSetKeyCallback, .glfwSetCursorPosCallback, .glfwSetScrollCallback,
    .glfwSetMouseButtonCallback, .glfwSetInputMode]
  let p := p.emit [.getCurrentTime, .perspective]
  let p := p.emit [.newLight, .newMeshRenderer, .newGroundRenderer, .newMasterRenderer]
  p.emit [.processWrapper "models/objects/Tree2.obj", .processWrapper "models/objects/Tree.obj"]

/-- The loop `for (it = meshes.begin(); it != meshes.end(); it++) processMesh(&(*it))`
(gl_pokemon.cpp:404-406). -/
def processMeshes : List MeshObject → Program → Program
  | [], p => p
  | it :: rest, p => processMeshes rest (p.emit [.processMesh it])

/-- The loop `for (it = grounds.begin(); it != grounds.end(); it++) processGround(&(*it))`
(gl_pokemon.cpp:408-410). -/
def processGrounds : List GroundObject → Program → Program
  | [], p => p
  | it :: rest, p => processGrounds rest (p.emit [.processGround it])

/-- The body of the frame loop (gl_pokemon.cpp:399-419).  The `float` bookkeeping of `delta`
and `lastFrameTime` is represented by the call of `getCurrentTime` only. -/
def frame (p : Program) : Program :=
  let p := p.emit [.glfwPollEvents]
  let p := p.emit [.cameraMove]
  let p := p.emit [.animate]
  let p := processMeshes p.meshes p
  let p := processGrounds p.grounds p
  let p := p.emit [.getViewMatrix, .masterRender]
  let p := p.emit [.glfwSwapBuffers]
  p.emit [.getCurrentTime]

/-- The loop `while (!glfwWindowShouldClose(window))` (gl_pokemon.cpp:397-420); `k` counts the
calls of `glfwWindowShouldClose` made so far.  `none` when the fuel runs out. -/
def frameLoop (env : Env) : Nat → Nat → Program → Option Program
  | 0, _, _ => none
  | fuel + 1, k, p =>
      let p := p.emit [.glfwWindowShouldClose]
      if env.shouldClose k then some p else frameLoop env fuel (k + 1) (frame p)

/-- The function `main` (gl_pokemon.cpp:272-427): the final program state and the exit code,
or `none` when the frame loop does not end within the fuel. -/
def main (env : Env) (fuel : Nat) : Option (Program × Int) :=
  let p : Program := { meshes := [], grounds := [], trace := [] }
  let p := p.emit [.glfwInit]
  if !env.glfwInitOk then
    let p := p.emit [.cerr "Failed to initialize GLFW!"]
    some (p, EXIT_FAILURE)
  else
    let p := p.emit [.glfwWindowHint "GLFW_SAMPLES" "4",
      .glfwWindowHint "GLFW_CONTEXT_VERSION_MAJOR" "3",
      .glfwWindowHint "GLFW_CONTEXT_VERSION_MINOR" "3",
      .glfwWindowHint "GLFW_OPENGL_FORWARD_COMPAT" "GL_TRUE",
      .glfwWindowHint "GLFW_OPENGL_PROFILE" "GLFW_OPENGL_CORE_PROFILE"]
    let p := p.emit [.glfwGetPrimaryMonitor, .glfwCreateWindow]
    if !env.windowCreated then
      let p := p.emit [.cerr
        "Failed to open GLFW window, your graphics card is probably only capable of OpenGL 2.1"]
      let p := p.emit [.glfwTerminate]
      some (p, EXIT_FAILURE)
    else
      let p := p.emit [.glfwGetWindowSize]
      let p := p.emit [.glfwMakeContextCurrent]
      let p := p.emit [.glewInit]
      let p := p.emit [.glewIsSupported "GL_VERSION_3_3"]
      if !env.gl33Supported then
        let p := p.emit [.cerr "Failed to initialize GLEW with OpenGL 3.3!"]
        let p := p.emit [.glfwTerminate]
        some (p, EXIT_FAILURE)
      else
        let p := buildScene env p
        match frameLoop env fuel 0 p with
        | none => none
        | some p =>
            let p := p.emit [.clean]
            let p := p.emit [.glfwTerminate]
            some (p, EXIT_SUCCESS)

/-- An event of scene set-up: the loading screen, a shader, a mesh, a wrapper, a ground tile,
the camera, the light, or a renderer. -/
def Event.isSceneObject : Event → Bool
  | .createLoadingScreen _ => true
  | .newMesh _ => true
  | .newThirdPersonCamera => true
  | .newMeshWrapper _ _ _ _ => true
  | .newGround _ => true
  | .newLight => true
  | .newMeshRenderer => true
  | .newGroundRenderer => true
  | .newMasterRenderer => true
  | .newStaticShader => true
  | .newGroundShader => true
  | _ => false

/-- An event of frame rendering. -/
def Event.isFrame : Event → Bool
  | .glfwPollEvents => true
  | .cameraMove => true
  | .animate => true
  | .processMesh _ => true
  | .processGround _ => true
  | .masterRender => true
  | .glfwSwapBuffers => true
  | _ => false

/-- A `processMesh` or `processGround` call. -/
def Event.isProcess : Event → Bool
  | .processMesh _ => true
  | .processGround _ => true
  | _ => false

/-- The calls of one frame for given lists, as the specification lists them (with the
evaluation of the view matrix before `render` and the time stamp after the swap). -/
def frameEvents (meshes : List MeshObject) (grounds : List GroundObject) : List Event :=
  [.glfwPollEvents, .cameraMove, .animate]
    ++ meshes.map Event.processMesh
    ++ grounds.map Event.processGround
    ++ [.getViewMatrix, .masterRender, .glfwSwapBuffers, .getCurrentTime]

/-- The calls of `n` iterations of the loop followed by the final test of the condition. -/
def loopEvents (meshes : List MeshObject) (grounds : List GroundObject) (n : Nat) :
    List Event :=
  (List.replicate n (Event.glfwWindowShouldClose :: frameEvents meshes grounds)).flatten
    ++ [Event.glfwWindowShouldClose]

/-- The calls of `main` up to and including `glfwCreateWindow` (gl_pokemon.cpp:275-288). -/
def callsUntilWindow : List Event :=
  [.glfwInit,
   .glfwWindowHint "GLFW_SAMPLES" "4",
   .glfwWindowHint "GLFW_CONTEXT_VERSION_MAJOR" "3",
   .glfwWindowHint "GLFW_CONTEXT_VERSION_MINOR" "3",
   .glfwWindowHint "GLFW_OPENGL_FORWARD_COMPAT" "GL_TRUE",
   .glfwWindowHint "GLFW_OPENGL_PROFILE" "GLFW_OPENGL_CORE_PROFILE",
   .glfwGetPrimaryMonitor, .glfwCreateWindow]

/-- The calls of `main` after the window check up to and including `glewIsSupported`
(gl_pokemon.cpp:296-305). -/
def callsUntilVersionCheck : List Event :=
  [.glfwGetWindowSize, .glfwMakeContextCurrent, .glewInit, .glewIsSupported "GL_VERSION_3_3"]

/-- The list `meshes` once `main` has built the scene. -/
def sceneMeshes (program_id : Nat) : List MeshObject :=
  [mainCharacter program_id, pokecenter program_id, squirle program_id, pikachu program_id]

/-- The vector `grounds` once `main` has built the scene. -/
def sceneGrounds (program_id : Nat) : List GroundObject :=
  [⟨program_id, 0, 0, "models/textures/Ground_grass3.tga"⟩,
   ⟨program_id, 1, 0, "models/textures/Ground_grass3.tga"⟩,
   ⟨program_id, 0, 1, "models/textures/Ground_grass3.tga"⟩,
   ⟨program_id, 1, 1, "models/textures/Ground_grass3.tga"⟩]

/-- Grid coordinates of a ground tile. -/
def GroundObject.grid (g : GroundObject) : Int × Int := (g.gridX, g.gridZ)

/-- The calls of scene construction (gl_pokemon.cpp:311-395), in program order. -/
def sceneEvents (program_id : Nat) : List Event :=
  [.createLoadingScreen "models/textures/LoadingScreen.tga",
   .newStaticShader, .newGroundShader,
   .newMesh (mainCharacter program_id), .newThirdPersonCamera,
   .newMesh (pokecenter program_id), .newMesh (squirle program_id),
   .newMesh (pikachu program_id),
   .newMeshWrapper "models/objects/Tree2.obj" "models/textures/Tree2.tga" 250 ⟨50, 75, 1⟩,
   .newMeshWrapper "models/objects/Tree.obj" "models/textures/Tree.tga" 250 ⟨4, 2, 100⟩,
   .newGround ⟨program_id, 0, 0, "models/textures/Ground_grass3.tga"⟩,
   .newGround ⟨program_id, 1, 0, "models/textures/Ground_grass3.tga"⟩,
   .newGround ⟨program_id, 0, 1, "models/textures/Ground_grass3.tga"⟩,
   .newGround ⟨program_id, 1, 1, "models/textures/Ground_grass3.tga"⟩,
   .glfwSetKeyCallback, .glfwSetCursorPosCallback, .glfwSetScrollCallback,
   .glfwSetMouseButtonCallback, .glfwSetInputMode,
   .getCurrentTime, .perspective,
   .newLight, .newMeshRenderer, .newGroundRenderer, .newMasterRenderer,
   .processWrapper "models/objects/Tree2.obj", .processWrapper "models/objects/Tree.obj"]

/-- The state of `main` when it enters the frame loop. -/
def beforeLoop (env : Env) : Program :=
  buildScene env ⟨[], [], callsUntilWindow ++ callsUntilVersionCheck⟩

/-! ## Sample inputs -/

/-- A sample matrix builder: it lists the values the matrix is built from. -/
def sampleMatrix (m : Mesh Int (List Int)) : List Int :=
  [m.position.x, m.position.y, m.position.z, m.rotX, m.rotY, m.rotZ, m.scale]

/-- A sample heap: the mesh at address `a` has VAO `a + 10`, texture `a + 100`, 6 indices. -/
def sampleHeap : MeshHeap Int (List Int) := fun a =>
  { position := ⟨9, 9, 9⟩, rotX := 1, rotY := 2, rotZ := 3, scale := 4,
    texturedModel := ⟨a + 10, 6, ⟨a + 100⟩, []⟩ }

/-- The sample heap with every mesh moved, turned and scaled. -/
def sampleHeapMoved : MeshHeap Int (List Int) := fun a =>
  { position := ⟨-1, -2, -3⟩, rotX := 90, rotY := 45, rotZ := 30, scale := 2,
    texturedModel := ⟨a + 10, 6, ⟨a + 100⟩, []⟩ }

/-- Two sample tiles that share the mesh at address 5. -/
def sampleGrounds : List (Ground Int) := [⟨0, 0, 5⟩, ⟨800, 0, 5⟩]

/-- A sample environment: all checks pass and the window asks to close at the second test. -/
def sampleEnv : Env :=
  { glfwInitOk := true, windowCreated := true, gl33Supported := true, program_id := 7,
    shouldClose := fun k => decide (1 ≤ k) }

/-- A sample environment in which no window can be created. -/
def sampleEnvNoWindow : Env :=
  { glfwInitOk := true, windowCreated := false, gl33Supported := true, program_id := 7,
    shouldClose := fun _ => false }

/-- The state in which `main` ends in the sample environment: one frame was rendered. -/
def sampleFinal : Program :=
  { meshes := sceneMeshes 7, grounds := sceneGrounds 7,
    trace := callsUntilWindow ++ callsUntilVersionCheck ++ sceneEvents 7
      ++ loopEvents (sceneMeshes 7) (sceneGrounds 7) 1 ++ [.clean, .glfwTerminate] }

/-- A sample state at the head of the frame loop. -/
def sampleProgram : Program :=
  { meshes := sceneMeshes 7, grounds := sceneGrounds 7, trace := [] }

/-- A key table with no key held. -/
def sampleKeys : InputState :=
  { keys := List.replicate 1024 0, windowShouldClose := false }

/-! ## Theorems: GroundRenderer -/

section GroundRendererTheorems

variable {F M : Type} [Zero F] [One F]

/-- After `loadModelMatrix` all five stores have landed in the mesh of the ground. -/
theorem loadModelMatrix_heap (ctm : Mesh F M → M) (g : Ground F) (s : RenderState F M) :
    (loadModelMatrix ctm g s).heap
      = Function.update s.heap g.mesh (placedMesh g (s.heap g.mesh)) := by
  funext a
  by_cases h : a = g.mesh
  · subst h
    simp [loadModelMatrix, RenderState.store, RenderState.emit, placedMesh]
  · simp [loadModelMatrix, RenderState.store, RenderState.emit, Function.update_noteq h]

/-- The only call of `loadModelMatrix` uploads the matrix of the placed mesh. -/
theorem loadModelMatrix_trace (ctm : Mesh F M → M) (g : Ground F) (s : RenderState F M) :
    (loadModelMatrix ctm g s).trace
      = s.trace ++ [.loadModelMatrix (ctm (placedMesh g (s.heap g.mesh)))] := by
  simp [loadModelMatrix, RenderState.store, RenderState.emit, placedMesh]

/-- One pass of the loop body appends the block of its ground, read off the heap at entry. -/
theorem renderBody_trace (ctm : Mesh F M → M) (projection view : M) (g : Ground F)
    (s : RenderState F M) :
    (renderBody ctm projection view g s).trace
      = s.trace ++ groundBlock ctm s.heap projection view g := by
  simp [renderBody, prepareGround, prepareInstance, unbindMesh, loadModelMatrix,
    RenderState.store, RenderState.emit, groundBlock, placedMesh]

/-- One pass of the loop body changes the heap only at the mesh of its ground. -/
theorem renderBody_heap (ctm : Mesh F M → M) (projection view : M) (g : Ground F)
    (s : RenderState F M) :
    (renderBody ctm projection view g s).heap
      = Function.update s.heap g.mesh (placedMesh g (s.heap g.mesh)) := by
  have h := loadModelMatrix_heap ctm g (prepareGround g projection view s)
  simpa [renderBody, prepareGround, prepareInstance, unbindMesh, RenderState.emit] using h

/-- The textured model of every mesh survives a pass of the loop body. -/
theorem renderBody_texturedModel (ctm : Mesh F M → M) (projection view : M) (g : Ground F)
    (s : RenderState F M) (a : Nat) :
    ((renderBody ctm projection view g s).heap a).texturedModel
      = (s.heap a).texturedModel := by
  rw [renderBody_heap]
  by_cases h : a = g.mesh
  · subst h; simp [placedMesh]
  · simp [Function.update_noteq h]

/-- The block of a ground reads only the textured models of the heap. -/
theorem groundBlock_congr (ctm : Mesh F M → M) (h₁ h₂ : MeshHeap F M) (projection view : M)
    (g : Ground F) (hh : ∀ a, (h₁ a).texturedModel = (h₂ a).texturedModel) :
    groundBlock ctm h₁ projection view g = groundBlock ctm h₂ projection view g := by
  simp [groundBlock, placedMesh, hh g.mesh]

/-- The trace of `render`, with the blocks read off any heap that has the textured models of
the heap at entry. -/
theorem render_trace_of_agree (ctm : Mesh F M → M) (grounds : List (Ground F))
    (projection view : M) (s : RenderState F M) (h₀ : MeshHeap F M)
    (hh : ∀ a, (s.heap a).texturedModel = (h₀ a).texturedModel) :
    (render ctm grounds projection view s).trace
      = s.trace ++ grounds.flatMap (groundBlock ctm h₀ projection view) := by
  induction grounds generalizing s with
  | nil => simp [render]
  | cons g rest ih =>
    have hh' : ∀ a, ((renderBody ctm projection view g s).heap a).texturedModel
        = (h₀ a).texturedModel := fun a => by
      rw [renderBody_texturedModel]; exact hh a
    rw [render, ih _ hh', renderBody_trace, List.flatMap_cons,
      groundBlock_congr ctm s.heap h₀ projection view g hh, List.append_assoc]

/-- Each block holds exactly one draw call. -/
theorem countP_isDraw_blocks (ctm : Mesh F M → M) (h : MeshHeap F M) (projection view : M)
    (grounds : List (Ground F)) :
    (grounds.flatMap (groundBlock ctm h projection view)).countP GLCall.isDraw
      = grounds.length := by
  induction grounds with
  | nil => simp
  | cons g rest ih =>
    rw [List.flatMap_cons, List.countP_append, ih]
    simp [groundBlock, GLCall.isDraw, List.countP_cons, Nat.add_comm]

/-- C1: `GroundRenderer::render` emits, for every list of grounds, exactly the concatenation in
list order of one block per ground: loadProjectionMatrix(projection), loadViewMatrix(view),
loadTextureUni(texture id of the ground), loadModelMatrix(transform of the ground), bind of the
ground's VAO, one glDrawElements with the ground's index count, unbind.  So the number of draw
calls is the number of grounds, an empty list emits nothing, and the emitted sequence does not
depend on the calls made before nor on the position, rotation or scale that the meshes held. -/
theorem render_emits_blocks_in_list_order (ctm : Mesh F M → M) (grounds : List (Ground F))
    (projection view : M) (s : RenderState F M) :
    (render ctm grounds projection view s).trace
        = s.trace ++ grounds.flatMap (groundBlock ctm s.heap projection view)
    ∧ (render ctm grounds projection view ⟨s.heap, []⟩).trace.countP GLCall.isDraw
        = grounds.length
    ∧ (render ctm [] projection view s).trace = s.trace
    ∧ ∀ h₂ : MeshHeap F M, (∀ a, (h₂ a).texturedModel = (s.heap a).texturedModel) →
        (render ctm grounds projection view ⟨h₂, []⟩).trace
          = (render ctm grounds projection view ⟨s.heap, []⟩).trace := by
  refine ⟨render_trace_of_agree ctm grounds projection view s s.heap (fun _ => rfl), ?_,
    rfl, ?_⟩
  · rw [render_trace_of_agree ctm grounds projection view ⟨s.heap, []⟩ s.heap (fun _ => rfl)]
    simpa using countP_isDraw_blocks ctm s.heap projection view grounds
  · intro h₂ hh
    rw [render_trace_of_agree ctm grounds projection view ⟨h₂, []⟩ s.heap hh,
      render_trace_of_agree ctm grounds projection view ⟨s.heap, []⟩ s.heap (fun _ => rfl)]

/-- C2: `loadModelMatrix` sets the mesh of the ground to position (g.x, 0, g.z), rotX = rotY =
rotZ = 0 and scale = 1, leaves its textured model and every other mesh alone, and uploads the
transformation matrix built from exactly those values, whatever position, rotation or scale
the mesh held before; for a matrix builder that yields the translation `T p` for a mesh at `p`
with zero rotation and unit scale, the uploaded matrix is the translation by (g.x, 0, g.z). -/
theorem loadModelMatrix_uploads_ground_transform (ctm : Mesh F M → M) (g : Ground F)
    (s : RenderState F M) :
    ((loadModelMatrix ctm g s).heap g.mesh).position = ⟨g.x, 0, g.z⟩
    ∧ ((loadModelMatrix ctm g s).heap g.mesh).rotX = 0
    ∧ ((loadModelMatrix ctm g s).heap g.mesh).rotY = 0
    ∧ ((loadModelMatrix ctm g s).heap g.mesh).rotZ = 0
    ∧ ((loadModelMatrix ctm g s).heap g.mesh).scale = 1
    ∧ ((loadModelMatrix ctm g s).heap g.mesh).texturedModel = (s.heap g.mesh).texturedModel
    ∧ (∀ a, a ≠ g.mesh → (loadModelMatrix ctm g s).heap a = s.heap a)
    ∧ (loadModelMatrix ctm g s).trace
        = s.trace ++ [.loadModelMatrix (ctm ((loadModelMatrix ctm g s).heap g.mesh))]
    ∧ (∀ m₀ : Mesh F M, m₀.texturedModel = (s.heap g.mesh).texturedModel →
        (loadModelMatrix ctm g (s.store g.mesh m₀)).heap = (loadModelMatrix ctm g s).heap
        ∧ (loadModelMatrix ctm g (s.store g.mesh m₀)).trace = (loadModelMatrix ctm g s).trace)
    ∧ (∀ T : Vec3 F → M,
        (∀ m : Mesh F M, m.rotX = 0 → m.rotY = 0 → m.rotZ = 0 → m.scale = 1 →
          ctm m = T m.position) →
        (loadModelMatrix ctm g s).trace = s.trace ++ [.loadModelMatrix (T ⟨g.x, 0, g.z⟩)]) := by
  have hheap := loadModelMatrix_heap ctm g s
  have hat : (loadModelMatrix ctm g s).heap g.mesh = placedMesh g (s.heap g.mesh) := by
    rw [hheap]; simp
  refine ⟨by rw [hat]; rfl, by rw [hat]; rfl, by rw [hat]; rfl, by rw [hat]; rfl,
    by rw [hat]; rfl, by rw [hat]; rfl, ?_, ?_, ?_, ?_⟩
  · intro a ha
    rw [hheap, Function.update_noteq ha]
  · rw [hat, loadModelMatrix_trace]
  · intro m₀ hm
    constructor
    · rw [loadModelMatrix_heap, hheap]
      simp [RenderState.store, placedMesh, hm]
    · rw [loadModelMatrix_trace, loadModelMatrix_trace]
      simp [RenderState.store, placedMesh, hm]
  · intro T hT
    rw [loadModelMatrix_trace, hT (placedMesh g (s.heap g.mesh)) rfl rfl rfl rfl]
    rfl

end GroundRendererTheorems

/-! ## Theorems: the frame loop and main -/

/-- The mesh loop appends one `processMesh` per element, in list order. -/
theorem processMeshes_eq (l : List MeshObject) (p : Program) :
    processMeshes l p = { p with trace := p.trace ++ l.map Event.processMesh } := by
  induction l generalizing p with
  | nil => simp [processMeshes]
  | cons m rest ih => simp [processMeshes, ih, Program.emit]

/-- The ground loop appends one `processGround` per element, in vector order. -/
theorem processGrounds_eq (l : List GroundObject) (p : Program) :
    processGrounds l p = { p with trace := p.trace ++ l.map Event.processGround } := by
  induction l generalizing p with
  | nil => simp [processGrounds]
  | cons g rest ih => simp [processGrounds, ih, Program.emit]

/-- One pass of the loop body: the lists stay, the calls of one frame are appended. -/
theorem frame_eq (p : Program) :
    frame p = { p with trace := p.trace ++ frameEvents p.meshes p.grounds } := by
  simp [frame, processMeshes_eq, processGrounds_eq, Program.emit, frameEvents]

/-- Whenever the loop ends it has run some number of identical frames and kept the lists. -/
theorem frameLoop_sound (env : Env) (fuel k : Nat) (p q : Program)
    (h : frameLoop env fuel k p = some q) :
    ∃ n, (∀ j, j < n → env.shouldClose (k + j) = false) ∧ env.shouldClose (k + n) = true
      ∧ q = { p with trace := p.trace ++ loopEvents p.meshes p.grounds n } := by
  induction fuel generalizing k p with
  | zero => simp [frameLoop] at h
  | succ fuel ih =>
    rw [frameLoop] at h
    by_cases hc : env.shouldClose k = true
    · simp only [hc, if_true, Option.some.injEq] at h
      refine ⟨0, by simp, by simpa using hc, ?_⟩
      simp [← h, Program.emit, loopEvents]
    · simp only [hc] at h
      obtain ⟨n, hlt, hn, hq⟩ := ih (k + 1) _ h
      refine ⟨n + 1, ?_, ?_, ?_⟩
      · intro j hj
        cases j with
        | zero => simpa using hc
        | succ j =>
          have := hlt j (by omega)
          rwa [show k + (j + 1) = k + 1 + j by omega]
      · rwa [show k + (n + 1) = k + 1 + n by omega]
      · rw [hq, frame_eq]
        simp [Program.emit, loopEvents, List.replicate_succ]

/-- When the window asks to close at the `n`-th test, fuel above `n` lets the loop end. -/
theorem frameLoop_complete (env : Env) (n : Nat) :
    ∀ (fuel k : Nat) (p : Program), n < fuel →
      (∀ j, j < n → env.shouldClose (k + j) = false) → env.shouldClose (k + n) = true →
      frameLoop env fuel k p
        = some { p with trace := p.trace ++ loopEvents p.meshes p.grounds n } := by
  induction n with
  | zero =>
    intro fuel k p hf _ hn
    obtain ⟨fuel, rfl⟩ : ∃ f, fuel = f + 1 := ⟨fuel - 1, by omega⟩
    have hk : env.shouldClose k = true := by simpa using hn
    simp [frameLoop, hk, Program.emit, loopEvents]
  | succ n ih =>
    intro fuel k p hf hlt hn
    obtain ⟨fuel, rfl⟩ : ∃ f, fuel = f + 1 := ⟨fuel - 1, by omega⟩
    have hk : env.shouldClose k = false := by simpa using hlt 0 (by omega)
    have hlt' : ∀ j, j < n → env.shouldClose (k + 1 + j) = false := fun j hj => by
      have := hlt (j + 1) (by omega)
      rwa [show k + (j + 1) = k + 1 + j by omega] at this
    have hn' : env.shouldClose (k + 1 + n) = true := by
      rwa [show k + (n + 1) = k + 1 + n by omega] at hn
    rw [frameLoop]
    simp only [hk]
    rw [if_neg (by simp), ih fuel (k + 1) _ (by omega) hlt' hn', frame_eq]
    simp [Program.emit, loopEvents, List.replicate_succ]

/-- Scene construction fills the two lists, whatever happened before. -/
theorem buildScene_lists (env : Env) (p : Program) (hm : p.meshes = []) :
    (buildScene env p).meshes = sceneMeshes env.program_id
    ∧ (buildScene env p).grounds = sceneGrounds env.program_id := by
  simp [buildScene, Program.emit, Program.pushMesh, Program.pushGround, sceneMeshes,
    sceneGrounds, hm]

/-- Scene construction appends its calls to the trace. -/
theorem buildScene_trace (env : Env) (p : Program) :
    (buildScene env p).trace = p.trace ++ sceneEvents env.program_id := by
  simp [buildScene, Program.emit, Program.pushMesh, Program.pushGround, sceneEvents]

/-- Scene construction makes no call that belongs to a frame. -/
theorem sceneEvents_no_frame (program_id : Nat) :
    (sceneEvents program_id).all (fun e => !e.isFrame) = true := by
  simp [sceneEvents, Event.isFrame]

/-- The two lists when `main` enters the frame loop. -/
theorem beforeLoop_lists (env : Env) :
    (beforeLoop env).meshes = sceneMeshes env.program_id
    ∧ (beforeLoop env).grounds = sceneGrounds env.program_id :=
  buildScene_lists env _ rfl

/-- With all three checks passed, `main` is scene construction, the loop, and the clean-up. -/
theorem main_ok_eq (env : Env) (fuel : Nat) (h1 : env.glfwInitOk = true)
    (h2 : env.windowCreated = true) (h3 : env.gl33Supported = true) :
    main env fuel = (frameLoop env fuel 0 (beforeLoop env)).map
      fun p => ({ p with trace := p.trace ++ [.clean, .glfwTerminate] }, EXIT_SUCCESS) := by
  simp only [main, h1, h2, h3, beforeLoop, Program.emit, callsUntilWindow,
    callsUntilVersionCheck]
  simp only [List.nil_append, List.cons_append, List.append_assoc, Bool.not_true]
  cases frameLoop env fuel 0 _ <;> simp

/-- A successful run of `main` went through all three checks. -/
theorem main_success_checks (env : Env) (fuel : Nat) (r : Program × Int)
    (h : main env fuel = some r) (hr : r.2 = EXIT_SUCCESS) :
    env.glfwInitOk = true ∧ env.windowCreated = true ∧ env.gl33Supported = true := by
  cases h1 : env.glfwInitOk with
  | false =>
    simp [main, h1] at h
    rw [← h] at hr; simp [EXIT_SUCCESS, EXIT_FAILURE] at hr
  | true =>
    cases h2 : env.windowCreated with
    | false =>
      simp [main, h1, h2] at h
      rw [← h] at hr; simp [EXIT_SUCCESS, EXIT_FAILURE] at hr
    | true =>
      cases h3 : env.gl33Supported with
      | false =>
        simp [main, h1, h2, h3] at h
        rw [← h] at hr; simp [EXIT_SUCCESS, EXIT_FAILURE] at hr
      | true => simp

/-- C3: every iteration of the frame loop of `main` makes the same calls in the same order:
poll events, move the camera, animate the main character, `processMesh` once per element of
`meshes` in list order, `processGround` once per element of `grounds` in vector order, then
`render` exactly once, then swap buffers; every `processMesh` and `processGround` call comes
before the `render` call of its frame, and the loop leaves `meshes` and `grounds` as they
were. -/
theorem frame_loop_fixed_sequence (p : Program) :
    (frame p).trace = p.trace ++
        ([Event.glfwPollEvents, .cameraMove, .animate] ++ p.meshes.map Event.processMesh
          ++ p.grounds.map Event.processGround
          ++ [.getViewMatrix, .masterRender, .glfwSwapBuffers, .getCurrentTime])
    ∧ (frameEvents p.meshes p.grounds).filter Event.isFrame
        = [Event.glfwPollEvents, .cameraMove, .animate] ++ p.meshes.map Event.processMesh
          ++ p.grounds.map Event.processGround ++ [.masterRender, .glfwSwapBuffers]
    ∧ (frameEvents p.meshes p.grounds).countP (fun e => decide (e = Event.masterRender)) = 1
    ∧ (∃ pre post, frameEvents p.meshes p.grounds = pre ++ Event.masterRender :: post
        ∧ pre.filter Event.isProcess
            = p.meshes.map Event.processMesh ++ p.grounds.map Event.processGround
        ∧ post.filter Event.isProcess = []
        ∧ post = [Event.glfwSwapBuffers, Event.getCurrentTime])
    ∧ (frame p).meshes = p.meshes
    ∧ (frame p).grounds = p.grounds
    ∧ ∀ (env : Env) (fuel k : Nat) (q : Program), frameLoop env fuel k p = some q →
        q.meshes = p.meshes ∧ q.grounds = p.grounds
        ∧ ∃ n, q.trace = p.trace
            ++ (List.replicate n
                  (Event.glfwWindowShouldClose :: frameEvents p.meshes p.grounds)).flatten
            ++ [Event.glfwWindowShouldClose] := by
  have hfm : ∀ l : List MeshObject, (l.map Event.processMesh).filter Event.isFrame
      = l.map Event.processMesh := fun l => by
    induction l with
    | nil => rfl
    | cons a l ih => simp [List.filter_cons, Event.isFrame, ih]
  have hfg : ∀ l : List GroundObject, (l.map Event.processGround).filter Event.isFrame
      = l.map Event.processGround := fun l => by
    induction l with
    | nil => rfl
    | cons a l ih => simp [List.filter_cons, Event.isFrame, ih]
  have hpm : ∀ l : List MeshObject, (l.map Event.processMesh).filter Event.isProcess
      = l.map Event.processMesh := fun l => by
    induction l with
    | nil => rfl
    | cons a l ih => simp [List.filter_cons, Event.isProcess, ih]
  have hpg : ∀ l : List GroundObject, (l.map Event.processGround).filter Event.isProcess
      = l.map Event.processGround := fun l => by
    induction l with
    | nil => rfl
    | cons a l ih => simp [List.filter_cons, Event.isProcess, ih]
  have hcm : ∀ l : List MeshObject,
      (l.map Event.processMesh).countP (fun e => decide (e = Event.masterRender)) = 0 :=
    fun l => by
      induction l with
      | nil => rfl
      | cons a l ih => simp [List.countP_cons, ih]
  have hcg : ∀ l : List GroundObject,
      (l.map Event.processGround).countP (fun e => decide (e = Event.masterRender)) = 0 :=
    fun l => by
      induction l with
      | nil => rfl
      | cons a l ih => simp [List.countP_cons, ih]
  refine ⟨?_, ?_, ?_, ?_, ?_, ?_, ?_⟩
  · rw [frame_eq]; rfl
  · simp only [frameEvents, List.filter_append, hfm, hfg]
    simp [List.filter_cons, Event.isFrame]
  · simp only [frameEvents, List.countP_append, hcm, hcg]
    simp [List.countP_cons]
  · refine ⟨[Event.glfwPollEvents, .cameraMove, .animate] ++ p.meshes.map Event.processMesh
      ++ p.grounds.map Event.processGround ++ [.getViewMatrix], _, ?_, ?_, ?_, rfl⟩
    · simp [frameEvents]
    · simp only [List.filter_append, hpm, hpg]
      simp [List.filter_cons, Event.isProcess]
    · simp [List.filter_cons, Event.isProcess]
  · rw [frame_eq]
  · rw [frame_eq]
  · intro env fuel k q h
    obtain ⟨n, -, -, hq⟩ := frameLoop_sound env fuel k p q h
    subst hq
    exact ⟨rfl, rfl, n, by simp [loopEvents]⟩

/-- C4: the scene built by `main` is a player character plus static props on a tiled ground:
`meshes` holds exactly four entries, the main character first and then three `Terrain` props;
`grounds` holds exactly four tiles with grid coordinates (0,0), (1,0), (0,1), (1,1), pairwise
distinct and covering the grid of 0, 1 by 0, 1, all with the same texture file.  These are the
lists a successful run of `main` ends with. -/
theorem scene_is_character_props_and_tiles (env : Env) (t : List Event) :
    (buildScene env ⟨[], [], t⟩).meshes
        = [mainCharacter env.program_id, pokecenter env.program_id, squirle env.program_id,
            pikachu env.program_id]
    ∧ (buildScene env ⟨[], [], t⟩).meshes.length = 4
    ∧ (buildScene env ⟨[], [], t⟩).meshes.map MeshObject.cls
        = [MeshClass.MainCharacter, .Terrain, .Terrain, .Terrain]
    ∧ (buildScene env ⟨[], [], t⟩).grounds.length = 4
    ∧ (buildScene env ⟨[], [], t⟩).grounds.map GroundObject.grid
        = [(0, 0), (1, 0), (0, 1), (1, 1)]
    ∧ ((buildScene env ⟨[], [], t⟩).grounds.map GroundObject.grid).Nodup
    ∧ (∀ c : Int × Int, c ∈ (buildScene env ⟨[], [], t⟩).grounds.map GroundObject.grid
        ↔ (c.1 = 0 ∨ c.1 = 1) ∧ (c.2 = 0 ∨ c.2 = 1))
    ∧ (∀ g ∈ (buildScene env ⟨[], [], t⟩).grounds,
        g.texture = "models/textures/Ground_grass3.tga")
    ∧ ∀ (fuel : Nat) (r : Program × Int), main env fuel = some r → r.2 = EXIT_SUCCESS →
        r.1.meshes = (buildScene env ⟨[], [], t⟩).meshes
        ∧ r.1.grounds = (buildScene env ⟨[], [], t⟩).grounds := by
  obtain ⟨hm, hg⟩ := buildScene_lists env ⟨[], [], t⟩ rfl
  rw [hm, hg]
  refine ⟨rfl, rfl, rfl, rfl, rfl, ?_, ?_, ?_, ?_⟩
  · show [((0 : Int), (0 : Int)), (1, 0), (0, 1), (1, 1)].Nodup
    decide
  · rintro ⟨a, b⟩
    simp only [sceneGrounds, GroundObject.grid, List.map_cons, List.map_nil, List.mem_cons,
      Prod.mk.injEq, List.mem_nil_iff, or_false]
    constructor
    · rintro (⟨rfl, rfl⟩ | ⟨rfl, rfl⟩ | ⟨rfl, rfl⟩ | ⟨rfl, rfl⟩) <;> simp
    · rintro ⟨rfl | rfl, rfl | rfl⟩ <;> simp
  · intro g hgm
    simp only [sceneGrounds, List.mem_cons, List.mem_nil_iff, or_false] at hgm
    rcases hgm with rfl | rfl | rfl | rfl <;> rfl
  · intro fuel r h hr
    obtain ⟨h1, h2, h3⟩ := main_success_checks env fuel r h hr
    rw [main_ok_eq env fuel h1 h2 h3] at h
    cases hl : frameLoop env fuel 0 (beforeLoop env) with
    | none => simp [hl] at h
    | some q =>
      simp only [hl, Option.map_some', Option.some.injEq] at h
      obtain ⟨n, -, -, hq⟩ := frameLoop_sound env fuel 0 _ q hl
      subst h
      subst hq
      dsimp only
      exact beforeLoop_lists env

/-- C5: `main` returns EXIT_FAILURE exactly when one of its three start-up checks fails
(glfwInit, glfwCreateWindow, GL 3.3 support), tested in that order.  When the first fails no
further call is made (only the diagnostic is written); when the second or third fails
`glfwTerminate` is the last call, no scene object is created and no frame is rendered.
Otherwise `main` builds the scene, runs the frame loop until the window should close, calls
`masterRenderer.clean` and `glfwTerminate`, and returns EXIT_SUCCESS. -/
theorem main_exit_code (env : Env) (fuel : Nat) :
    (∀ r : Program × Int, main env fuel = some r →
        (r.2 = EXIT_FAILURE ↔
          (env.glfwInitOk = false ∨ env.windowCreated = false ∨ env.gl33Supported = false))
        ∧ (r.2 = EXIT_FAILURE ∨ r.2 = EXIT_SUCCESS)
        ∧ (r.2 = EXIT_FAILURE →
            r.1.trace.all (fun e => !e.isSceneObject && !e.isFrame) = true
            ∧ r.1.meshes = [] ∧ r.1.grounds = []))
    ∧ (env.glfwInitOk = false →
        main env fuel
          = some (⟨[], [], [.glfwInit, .cerr "Failed to initialize GLFW!"]⟩, EXIT_FAILURE))
    ∧ (env.glfwInitOk = true → env.windowCreated = false →
        main env fuel
          = some (⟨[], [], callsUntilWindow ++ [.cerr
              "Failed to open GLFW window, your graphics card is probably only capable of OpenGL 2.1",
              .glfwTerminate]⟩, EXIT_FAILURE))
    ∧ (env.glfwInitOk = true → env.windowCreated = true → env.gl33Supported = false →
        main env fuel
          = some (⟨[], [], callsUntilWindow ++ callsUntilVersionCheck
              ++ [.cerr "Failed to initialize GLEW with OpenGL 3.3!", .glfwTerminate]⟩,
              EXIT_FAILURE))
    ∧ (env.glfwInitOk = true → env.windowCreated = true → env.gl33Supported = true →
        (∀ n : Nat, n < fuel → (∀ j, j < n → env.shouldClose j = false) →
          env.shouldClose n = true →
          main env fuel
            = some (⟨sceneMeshes env.program_id, sceneGrounds env.program_id,
                callsUntilWindow ++ callsUntilVersionCheck ++ sceneEvents env.program_id
                  ++ loopEvents (sceneMeshes env.program_id) (sceneGrounds env.program_id) n
                  ++ [.clean, .glfwTerminate]⟩, EXIT_SUCCESS))
        ∧ (∀ r : Program × Int, main env fuel = some r →
            ∃ n : Nat, (∀ j, j < n → env.shouldClose j = false) ∧ env.shouldClose n = true
              ∧ r = (⟨sceneMeshes env.program_id, sceneGrounds env.program_id,
                callsUntilWindow ++ callsUntilVersionCheck ++ sceneEvents env.program_id
                  ++ loopEvents (sceneMeshes env.program_id) (sceneGrounds env.program_id) n
                  ++ [.clean, .glfwTerminate]⟩, EXIT_SUCCESS))) := by
  have hF1 : env.glfwInitOk = false →
      main env fuel
        = some (⟨[], [], [.glfwInit, .cerr "Failed to initialize GLFW!"]⟩, EXIT_FAILURE) := by
    intro h1; simp [main, h1, Program.emit]
  have hF2 : env.glfwInitOk = true → env.windowCreated = false →
      main env fuel
        = some (⟨[], [], callsUntilWindow ++ [.cerr
            "Failed to open GLFW window, your graphics card is probably only capable of OpenGL 2.1",
            .glfwTerminate]⟩, EXIT_FAILURE) := by
    intro h1 h2; simp [main, h1, h2, Program.emit, callsUntilWindow]
  have hF3 : env.glfwInitOk = true → env.windowCreated = true → env.gl33Supported = false →
      main env fuel
        = some (⟨[], [], callsUntilWindow ++ callsUntilVersionCheck
            ++ [.cerr "Failed to initialize GLEW with OpenGL 3.3!", .glfwTerminate]⟩,
            EXIT_FAILURE) := by
    intro h1 h2 h3
    simp [main, h1, h2, h3, Program.emit, callsUntilWindow, callsUntilVersionCheck]
  have hb : beforeLoop env = ⟨sceneMeshes env.program_id, sceneGrounds env.program_id,
      callsUntilWindow ++ callsUntilVersionCheck ++ sceneEvents env.program_id⟩ := by
    obtain ⟨hm, hg⟩ := beforeLoop_lists env
    have ht : (beforeLoop env).trace
        = callsUntilWindow ++ callsUntilVersionCheck ++ sceneEvents env.program_id :=
      buildScene_trace env _
    cases hp : beforeLoop env with
    | mk ms gs tr =>
      rw [hp] at hm hg ht
      dsimp only at hm hg ht
      rw [hm, hg, ht]
  have hOk : env.glfwInitOk = true → env.windowCreated = true → env.gl33Supported = true →
      ∀ r : Program × Int, main env fuel = some r →
        ∃ n : Nat, (∀ j, j < n → env.shouldClose j = false) ∧ env.shouldClose n = true
          ∧ r = (⟨sceneMeshes env.program_id, sceneGrounds env.program_id,
            callsUntilWindow ++ callsUntilVersionCheck ++ sceneEvents env.program_id
              ++ loopEvents (sceneMeshes env.program_id) (sceneGrounds env.program_id) n
              ++ [.clean, .glfwTerminate]⟩, EXIT_SUCCESS) := by
    intro h1 h2 h3 r h
    rw [main_ok_eq env fuel h1 h2 h3, hb] at h
    obtain ⟨q, hl, hr⟩ := Option.map_eq_some'.mp h
    obtain ⟨n, hlt, hn, hq⟩ := frameLoop_sound env fuel 0 _ q hl
    refine ⟨n, fun j hj => by simpa using hlt j hj, by simpa using hn, ?_⟩
    subst hr
    subst hq
    rfl
  refine ⟨?_, hF1, hF2, hF3, fun h1 h2 h3 => ⟨?_, hOk h1 h2 h3⟩⟩
  · intro r h
    cases h1 : env.glfwInitOk with
    | false =>
      rw [hF1 h1] at h
      simp only [Option.some.injEq] at h
      subst h
      exact ⟨by simp, Or.inl rfl, fun _ => ⟨by decide, rfl, rfl⟩⟩
    | true =>
      cases h2 : env.windowCreated with
      | false =>
        rw [hF2 h1 h2] at h
        simp only [Option.some.injEq] at h
        subst h
        exact ⟨by simp, Or.inl rfl, fun _ => ⟨by decide, rfl, rfl⟩⟩
      | true =>
        cases h3 : env.gl33Supported with
        | false =>
          rw [hF3 h1 h2 h3] at h
          simp only [Option.some.injEq] at h
          subst h
          exact ⟨by simp, Or.inl rfl, fun _ => ⟨by decide, rfl, rfl⟩⟩
        | true =>
          obtain ⟨n, -, -, hr⟩ := hOk h1 h2 h3 r h
          subst hr
          refine ⟨by simp [EXIT_SUCCESS, EXIT_FAILURE], Or.inr rfl, fun hc => ?_⟩
          simp [EXIT_SUCCESS, EXIT_FAILURE] at hc
  · intro n hf hlt hn
    rw [main_ok_eq env fuel h1 h2 h3, hb,
      frameLoop_complete env n fuel 0 _ hf (fun j hj => by simpa using hlt j hj)
        (by simpa using hn)]
    rfl

/-! ## Theorems: input handlers and the loading screen -/

/-- A store inside the table succeeds. -/
theorem keysStore_inside (keys : List Int) (key v : Int) (h0 : 0 ≤ key)
    (h1 : key < keys.length) : keysStore keys key v = some (keys.set key.toNat v) := by
  simp [keysStore, h0, h1]

/-- The result of `OnKeyPress` on a table of 1024 entries, in closed form. -/
theorem OnKeyPress_eq (s : InputState) (key action : Int) (hlen : s.keys.length = 1024) :
    OnKeyPress s key action = some
      { keys := if key ≥ 0 ∧ key < 1024 then
          (if action = GLFW_PRESS then s.keys.set key.toNat 1
           else if action = GLFW_RELEASE then s.keys.set key.toNat 0 else s.keys)
          else s.keys,
        windowShouldClose := if key = GLFW_KEY_ESCAPE ∧ action = GLFW_PRESS then true
          else s.windowShouldClose } := by
  have hstore : ∀ v : Int, key ≥ 0 ∧ key < 1024 →
      keysStore s.keys key v = some (s.keys.set key.toNat v) := fun v hk =>
    keysStore_inside _ _ _ hk.1 (by rw [hlen]; exact_mod_cast hk.2)
  unfold OnKeyPress
  by_cases he : key = GLFW_KEY_ESCAPE ∧ action = GLFW_PRESS
  · rw [if_pos he, if_pos he]
    dsimp only
    by_cases hk : key ≥ 0 ∧ key < 1024
    · rw [if_pos hk, if_pos hk, if_pos he.2, if_pos he.2, hstore 1 hk]
      rfl
    · rw [if_neg hk, if_neg hk]
  · rw [if_neg he, if_neg he]
    dsimp only
    by_cases hk : key ≥ 0 ∧ key < 1024
    · rw [if_pos hk, if_pos hk]
      by_cases hp : action = GLFW_PRESS
      · rw [if_pos hp, if_pos hp, hstore 1 hk]
        rfl
      · rw [if_neg hp, if_neg hp]
        by_cases hr : action = GLFW_RELEASE
        · rw [if_pos hr, if_pos hr, hstore 0 hk]
          rfl
        · rw [if_neg hr, if_neg hr]
    · rw [if_neg hk, if_neg hk]

/-- C6: `OnKeyPress` maintains the 1024-entry key table safely.  For 0 <= key < 1024 the entry
`keys[key]` becomes true (1) on GLFW_PRESS, false (0) on GLFW_RELEASE, the table is unchanged
for any other action, and every other entry is unchanged; for key < 0 or key >= 1024 the whole
table is unchanged.  No assignment falls outside the table: the handler always returns. -/
theorem OnKeyPress_key_table (s : InputState) (key action : Int)
    (hlen : s.keys.length = 1024) :
    ∃ s' : InputState, OnKeyPress s key action = some s'
      ∧ s'.keys.length = 1024
      ∧ (0 ≤ key ∧ key < 1024 →
          (action = GLFW_PRESS → s'.keys[key.toNat]? = some 1)
          ∧ (action = GLFW_RELEASE → s'.keys[key.toNat]? = some 0)
          ∧ (action ≠ GLFW_PRESS → action ≠ GLFW_RELEASE → s'.keys = s.keys)
          ∧ ∀ j : Nat, j ≠ key.toNat → s'.keys[j]? = s.keys[j]?)
      ∧ (key < 0 ∨ key ≥ 1024 → s'.keys = s.keys) := by
  refine ⟨_, OnKeyPress_eq s key action hlen, ?_, ?_, ?_⟩
  · dsimp only
    split_ifs <;> simp [hlen]
  · intro hk
    have hk' : key ≥ 0 ∧ key < 1024 := hk
    have hnat : key.toNat < s.keys.length := by omega
    dsimp only
    rw [if_pos hk']
    refine ⟨fun hp => ?_, fun hr => ?_, fun hp hr => ?_, fun j hj => ?_⟩
    · rw [if_pos hp]; simp [List.getElem?_set, hnat]
    · have hp : ¬ action = GLFW_PRESS := by rw [hr]; simp [GLFW_PRESS, GLFW_RELEASE]
      rw [if_neg hp, if_pos hr]; simp [List.getElem?_set, hnat]
    · rw [if_neg hp, if_neg hr]
    · split_ifs <;> simp [List.getElem?_set, Ne.symm hj]
  · intro hk
    have hk' : ¬(key ≥ 0 ∧ key < 1024) := by omega
    dsimp only
    rw [if_neg hk']

/-- The key GLFW_KEY_UNKNOWN changes nothing, whatever the action and the table. -/
theorem OnKeyPress_unknown_key (s : InputState) (action : Int) :
    OnKeyPress s GLFW_KEY_UNKNOWN action = some s := by
  simp [OnKeyPress, GLFW_KEY_UNKNOWN, GLFW_KEY_ESCAPE]

/-- A repeated key changes nothing. -/
theorem OnKeyPress_repeat (s : InputState) (key : Int) :
    OnKeyPress s key GLFW_REPEAT = some s := by
  simp [OnKeyPress, GLFW_REPEAT, GLFW_PRESS, GLFW_RELEASE]

/-- For a window of positive width the unclamped x value lies in [-1, 1] exactly for cursor
positions between (H - W) / 2 and (H + W) / 2. -/
theorem rawCoordX_in_range_iff (W H : Int) (x : ℚ) (hW : 0 < W) :
    (-1 ≤ rawCoordX W H x ∧ rawCoordX W H x ≤ 1)
      ↔ ((H : ℚ) - W) / 2 ≤ x ∧ x ≤ ((H : ℚ) + W) / 2 := by
  have hq : (0 : ℚ) < W := by exact_mod_cast hW
  unfold rawCoordX
  rw [le_div_iff₀ hq, div_le_iff₀ hq]
  constructor
  · rintro ⟨h1, h2⟩; constructor <;> linarith
  · rintro ⟨h1, h2⟩; constructor <;> linarith

/-- For a window at least as wide as high the unclamped y value of a cursor inside the window
lies in [-1, 1]. -/
theorem rawCoordY_in_range (W H : Int) (y : ℚ) (hH : 0 < H) (hWH : H ≤ W)
    (h0 : 0 ≤ y) (h1 : y ≤ H) :
    -1 ≤ rawCoordY W H y ∧ rawCoordY W H y ≤ 1 := by
  have hq : (0 : ℚ) < W := by exact_mod_cast lt_of_lt_of_le hH hWH
  have hle : (H : ℚ) ≤ W := by exact_mod_cast hWH
  unfold rawCoordY
  rw [le_div_iff₀ hq, div_le_iff₀ hq]
  constructor <;> linarith

/-- C7: at the default window size 1600 x 900 the cursor position (1600, 450) lies inside the
window, yet the unclamped x value (2 * 1600 - 900) / 1600 = 23/16 exceeds 1, so the clamp
changes it to 1: the clamp takes effect for a cursor inside the window. -/
theorem toScreenCoord_clamps_inside_window :
    insideWindow 1600 900 1600 450
    ∧ rawCoordX 1600 900 1600 = 23 / 16
    ∧ clamp (rawCoordX 1600 900 1600) (-1) 1 = 1
    ∧ clamp (rawCoordX 1600 900 1600) (-1) 1 ≠ rawCoordX 1600 900 1600
    ∧ ∀ (sqrt : ℚ → ℚ) (normalize : Vec3 ℚ → Vec3 ℚ),
        (toScreenCoord sqrt normalize 1600 900 1600 450).x = 1 := by
  have hx : rawCoordX 1600 900 1600 = 23 / 16 := by norm_num [rawCoordX]
  have hy : rawCoordY 1600 900 450 = 0 := by norm_num [rawCoordY]
  have hcx : clamp (23 / 16) (-1) 1 = 1 := by norm_num [clamp]
  have hcy : clamp 0 (-1) 1 = 0 := by norm_num [clamp]
  refine ⟨by norm_num [insideWindow], hx, by rw [hx, hcx], by rw [hx, hcx]; norm_num, ?_⟩
  intro sqrt normalize
  simp only [toScreenCoord, hx, hy, hcx, hcy]
  norm_num

/-- The upload of `createLoadingScreen` always reads 1500 * 843 * 3 bytes, and stays inside
the buffer exactly when the loaded image holds at least that many bytes. -/
theorem createLoadingScreen_inBounds_iff (tgafile : TGAFILE_t) :
    (createLoadingScreen tgafile).bytesRead = 1500 * 843 * 3
    ∧ ((createLoadingScreen tgafile).inBounds ↔
        1500 * 843 * 3 ≤ tgafile.imageWidth * tgafile.imageHeight * (tgafile.bitCount / 8)) := by
  have h : (createLoadingScreen tgafile).bytesRead = 1500 * 843 * 3 := by
    unfold TexImage2D.bytesRead createLoadingScreen rowStride
    norm_num
  refine ⟨h, ?_⟩
  unfold TexImage2D.inBounds
  rw [h]
  exact Iff.rfl

/-- C8: for the well-formed TGA header of a 1 x 1 image with 24 bits per pixel the buffer of
`createLoadingScreen` holds 3 bytes, while the upload reads 1500 * 843 * 3 = 3793500 bytes: it
reads past the pixel data, and the uploaded dimensions differ from those of the image. -/
theorem createLoadingScreen_reads_past_buffer :
    (createLoadingScreen ⟨1, 1, 24⟩).dataSize = 3
    ∧ (createLoadingScreen ⟨1, 1, 24⟩).bytesRead = 3793500
    ∧ ¬ (createLoadingScreen ⟨1, 1, 24⟩).inBounds
    ∧ ((createLoadingScreen ⟨1, 1, 24⟩).width, (createLoadingScreen ⟨1, 1, 24⟩).height)
        ≠ ((⟨1, 1, 24⟩ : TGAFILE_t).imageWidth, (⟨1, 1, 24⟩ : TGAFILE_t).imageHeight) := by
  obtain ⟨hb, hi⟩ := createLoadingScreen_inBounds_iff ⟨1, 1, 24⟩
  refine ⟨by simp [createLoadingScreen, loadingScreenBufferSize], by rw [hb], ?_, ?_⟩
  · rw [hi]; norm_num
  · simp [createLoadingScreen]

/-! ## The theorems at sample inputs -/

/-- The sample environment lets `main` run one frame and end in `sampleFinal`. -/
theorem main_sample_run : main sampleEnv 3 = some (sampleFinal, EXIT_SUCCESS) := by
  rw [main_ok_eq sampleEnv 3 rfl rfl rfl,
    frameLoop_complete sampleEnv 1 3 0 _ (by decide)
      (fun j hj => by
        obtain rfl : j = 0 := by omega
        rfl)
      rfl]
  have hm := (beforeLoop_lists sampleEnv).1
  have hg := (beforeLoop_lists sampleEnv).2
  have ht : (beforeLoop sampleEnv).trace
      = callsUntilWindow ++ callsUntilVersionCheck ++ sceneEvents sampleEnv.program_id :=
    buildScene_trace sampleEnv _
  simp only [Option.map_some', hm, hg, ht]
  rfl

/-- The frame loop on the sample state runs one frame. -/
theorem frameLoop_sample_run :
    frameLoop sampleEnv 3 0 sampleProgram
      = some { sampleProgram with
          trace := sampleProgram.trace
            ++ loopEvents sampleProgram.meshes sampleProgram.grounds 1 } :=
  frameLoop_complete sampleEnv 1 3 0 _ (by decide)
    (fun j hj => by
      obtain rfl : j = 0 := by omega
      rfl)
    rfl

/-- C1 at two tiles that share one mesh: two blocks in list order, the second with its own
transform, and the same calls from a heap whose meshes were moved. -/
theorem render_emits_blocks_in_list_order_witness :
    (render sampleMatrix sampleGrounds [1] [2] ⟨sampleHeap, []⟩).trace
        = [.loadProjectionMatrix [1], .loadViewMatrix [2], .loadTextureUni 105,
           .loadModelMatrix [0, 0, 0, 0, 0, 0, 1], .glBindVertexArray 15, .glDrawElements 6,
           .glBindVertexArray 0,
           .loadProjectionMatrix [1], .loadViewMatrix [2], .loadTextureUni 105,
           .loadModelMatrix [800, 0, 0, 0, 0, 0, 1], .glBindVertexArray 15, .glDrawElements 6,
           .glBindVertexArray 0]
    ∧ (render sampleMatrix sampleGrounds [1] [2] ⟨sampleHeapMoved, []⟩).trace
        = (render sampleMatrix sampleGrounds [1] [2] ⟨sampleHeap, []⟩).trace :=
  ⟨(render_emits_blocks_in_list_order sampleMatrix sampleGrounds [1] [2]
      ⟨sampleHeap, []⟩).1.trans rfl,
   (render_emits_blocks_in_list_order sampleMatrix sampleGrounds [1] [2]
      ⟨sampleHeap, []⟩).2.2.2 sampleHeapMoved (fun _ => rfl)⟩

/-- C2 at the tile (800, 0) on mesh 5: the upload is the translation by (800, 0, 0). -/
theorem loadModelMatrix_uploads_ground_transform_witness :
    (∀ m : Mesh Int (List Int), m.rotX = 0 → m.rotY = 0 → m.rotZ = 0 → m.scale = 1 →
        sampleMatrix m = [m.position.x, m.position.y, m.position.z, 0, 0, 0, 1])
    ∧ (loadModelMatrix sampleMatrix ⟨800, 0, 5⟩ ⟨sampleHeap, []⟩).trace
        = [] ++ [.loadModelMatrix [800, 0, 0, 0, 0, 0, 1]] :=
  ⟨fun m hx hy hz hs => by simp [sampleMatrix, hx, hy, hz, hs],
   (loadModelMatrix_uploads_ground_transform sampleMatrix ⟨800, 0, 5⟩
      ⟨sampleHeap, []⟩).2.2.2.2.2.2.2.2.2
      (fun p => [p.x, p.y, p.z, 0, 0, 0, 1])
      (fun m hx hy hz hs => by simp [sampleMatrix, hx, hy, hz, hs])⟩

/-- C3 at the scene of `main`: a loop that ends after one frame keeps both lists. -/
theorem frame_loop_fixed_sequence_witness :
    frameLoop sampleEnv 3 0 sampleProgram
        = some { sampleProgram with
            trace := sampleProgram.trace
              ++ loopEvents sampleProgram.meshes sampleProgram.grounds 1 }
    ∧ ({ sampleProgram with
          trace := sampleProgram.trace
            ++ loopEvents sampleProgram.meshes sampleProgram.grounds 1 } : Program).meshes
        = sampleProgram.meshes :=
  ⟨frameLoop_sample_run,
   ((frame_loop_fixed_sequence sampleProgram).2.2.2.2.2.2 sampleEnv 3 0 _
      frameLoop_sample_run).1⟩

/-- C4 at the sample environment: `main` ends with the four meshes and the four tiles. -/
theorem scene_is_character_props_and_tiles_witness :
    main sampleEnv 3 = some (sampleFinal, EXIT_SUCCESS)
    ∧ sampleFinal.meshes = (buildScene sampleEnv ⟨[], [], []⟩).meshes
    ∧ sampleFinal.grounds = (buildScene sampleEnv ⟨[], [], []⟩).grounds :=
  ⟨main_sample_run,
   (scene_is_character_props_and_tiles sampleEnv []).2.2.2.2.2.2.2.2 3
      (sampleFinal, EXIT_SUCCESS) main_sample_run rfl⟩

/-- C5 at the sample environments: one frame and EXIT_SUCCESS when all checks pass,
EXIT_FAILURE after `glfwTerminate` when no window can be created. -/
theorem main_exit_code_witness :
    main sampleEnv 3
        = some (⟨sceneMeshes 7, sceneGrounds 7,
            callsUntilWindow ++ callsUntilVersionCheck ++ sceneEvents 7
              ++ loopEvents (sceneMeshes 7) (sceneGrounds 7) 1
              ++ [.clean, .glfwTerminate]⟩, EXIT_SUCCESS)
    ∧ main sampleEnvNoWindow 3
        = some (⟨[], [], callsUntilWindow ++ [.cerr
            "Failed to open GLFW window, your graphics card is probably only capable of OpenGL 2.1",
            .glfwTerminate]⟩, EXIT_FAILURE) :=
  ⟨((main_exit_code sampleEnv 3).2.2.2.2 rfl rfl rfl).1 1 (by decide)
      (fun j hj => by
        obtain rfl : j = 0 := by omega
        rfl)
      rfl,
   (main_exit_code sampleEnvNoWindow 3).2.2.1 rfl rfl⟩

/-- C6 at an empty table: pressing key 65 sets entry 65 and leaves entry 66 alone. -/
theorem OnKeyPress_key_table_witness :
    sampleKeys.keys.length = 1024
    ∧ ∃ s' : InputState, OnKeyPress sampleKeys 65 GLFW_PRESS = some s'
        ∧ s'.keys[65]? = some 1 ∧ s'.keys[66]? = sampleKeys.keys[66]? :=
  ⟨List.length_replicate 1024 0,
   (OnKeyPress_key_table sampleKeys 65 GLFW_PRESS (List.length_replicate 1024 0)).elim
     fun s' h => ⟨s', h.1, (h.2.2.1 ⟨by decide, by decide⟩).1 rfl,
       (h.2.2.1 ⟨by decide, by decide⟩).2.2.2 66 (by decide)⟩⟩

end Pokemon3D
